import Mathlib

/-!
Shallow embedding of the theme-preference controller implemented in
src/assets/js/theme.js.

The JavaScript module keeps one mutable variable `currentTheme`, reads and
writes one localStorage key, mutates the `data-theme` attribute of the
document root, and dispatches `themeChange` custom events.  We embed this
state as the structure `State` (current theme string, optional document
marker attribute, and the list of dispatched events, in dispatch order).
The localStorage collaborator is embedded as `Store`: the stored value for
the single key, plus two flags saying whether a read or a write throws.
The try/catch blocks in `getSavedTheme` and `saveTheme` swallow every
store exception, so both embeddings are total functions: a read failure
returns the default and a write failure leaves the store untouched, and no
exception escapes.
-/

/-- The single localStorage key `THEME_KEY` used by the module. -/
def THEME_KEY : String := "mms-theme-preference"

namespace THEMES

/-- `THEMES.SYSTEM` constant. -/
def SYSTEM : String := "system"

/-- `THEMES.LIGHT` constant. -/
def LIGHT : String := "light"

/-- `THEMES.DARK` constant. -/
def DARK : String := "dark"

end THEMES

/-- `Object.values(THEMES)`, in declaration order. -/
def themesValues : List String := [THEMES.SYSTEM, THEMES.LIGHT, THEMES.DARK]

/-- The persistent preference store (localStorage restricted to the one key
used by the module).  `val` is the stored string, `none` when the key is
absent.  `readFails` / `writeFails` say whether `getItem` / `setItem`
throw. -/
structure Store where
  val : Option String
  readFails : Bool
  writeFails : Bool
deriving DecidableEq, Repr

/-- One dispatched `themeChange` event: the `detail.theme` payload and the
value the module variable `currentTheme` holds at the moment of
dispatch. -/
structure ThemeEvent where
  theme : String
  modeAtDispatch : String
deriving DecidableEq, Repr

/-- The in-memory state of the module: the `currentTheme` variable, the
`data-theme` attribute on the document root (`none` when the attribute is
removed), and the `themeChange` events dispatched so far. -/
structure State where
  currentTheme : String
  dataTheme : Option String
  events : List ThemeEvent
deriving DecidableEq, Repr

/-- Module state at script load: `let currentTheme = THEMES.SYSTEM`, no
marker on a fresh document, no events dispatched. -/
def initialState : State :=
  { currentTheme := THEMES.SYSTEM, dataTheme := none, events := [] }

/-- `getSavedTheme()`: `localStorage.getItem(THEME_KEY) || THEMES.SYSTEM`
inside try/catch.  `getItem` yields `null` for an absent key; `null` and
the empty string are the only falsy values a string-valued store can
produce, and `||` replaces either with `"system"`.  A thrown read is
caught and also yields `"system"`. -/
def getSavedTheme (store : Store) : String :=
  if store.readFails then THEMES.SYSTEM
  else
    match store.val with
    | none => THEMES.SYSTEM
    | some v => if v = "" then THEMES.SYSTEM else v

/-- `saveTheme(theme)`: `localStorage.setItem(THEME_KEY, theme)` inside
try/catch; a thrown write is caught and leaves the store unchanged. -/
def saveTheme (theme : String) (store : Store) : Store :=
  if store.writeFails then store else { store with val := some theme }

/-- `getSystemTheme()`: `"dark"` when the OS `prefers-color-scheme: dark`
media query matches, else `"light"`. -/
def getSystemTheme (osPrefersDark : Bool) : String :=
  if osPrefersDark then THEMES.DARK else THEMES.LIGHT

/-- `applyTheme(theme)`: first the document marker is set (removed for
`"system"`, set to `theme` otherwise), then `currentTheme = theme`, then
the `themeChange` event with `detail.theme = theme` is dispatched.  The
event record captures the value of `currentTheme` at dispatch time. -/
def applyTheme (theme : String) (st : State) : State :=
  let st1 :=
    if theme = THEMES.SYSTEM then { st with dataTheme := none }
    else { st with dataTheme := some theme }
  let st2 := { st1 with currentTheme := theme }
  { st2 with
    events := st2.events ++ [{ theme := theme, modeAtDispatch := st2.currentTheme }] }

/-- Combined state of the module and its store collaborator. -/
structure Sys where
  state : State
  store : Store
deriving DecidableEq, Repr

/-- `ThemeManager.setTheme(theme)`: if `Object.values(THEMES)` contains
`theme`, save it and apply it; otherwise do nothing. -/
def setTheme (theme : String) (sys : Sys) : Sys :=
  if theme ∈ themesValues then
    { state := applyTheme theme sys.state, store := saveTheme theme sys.store }
  else sys

/-- `ThemeManager.getTheme()`: pure read of `currentTheme`. -/
def getTheme (sys : Sys) : String := sys.state.currentTheme

/-- `cycleTheme()`: the switch on `currentTheme` picks the next theme
(system → light → dark → system, default branch → system), saves it, and
applies it. -/
def cycleTheme (sys : Sys) : Sys :=
  let cur := sys.state.currentTheme
  let nextTheme :=
    if cur = THEMES.SYSTEM then THEMES.LIGHT
    else if cur = THEMES.LIGHT then THEMES.DARK
    else if cur = THEMES.DARK then THEMES.SYSTEM
    else THEMES.SYSTEM
  { state := applyTheme nextTheme sys.state, store := saveTheme nextTheme sys.store }

/-- `initTheme()` (startup): read the saved theme and apply it.  The
media-query and click listeners it also registers are embedded separately
as `mediaQueryChangeHandler` and `cycleTheme`. -/
def initTheme (sys : Sys) : Sys :=
  { sys with state := applyTheme (getSavedTheme sys.store) sys.state }

/-- The listener `initTheme` registers on the `prefers-color-scheme: dark`
media query: when the OS signal changes, re-apply `"system"` if and only
if `currentTheme` is `"system"`. -/
def mediaQueryChangeHandler (st : State) : State :=
  if st.currentTheme = THEMES.SYSTEM then applyTheme THEMES.SYSTEM st else st

/-- The effective visual theme consumed by the presentation layer: the
explicit mode when one is set, else the OS appearance signal (this is the
CSS-side derivation the removed/set `data-theme` marker selects). -/
def effectiveTheme (mode : String) (osPrefersDark : Bool) : String :=
  if mode = THEMES.SYSTEM then getSystemTheme osPrefersDark else mode

/-! ## Theorems -/

/-- C2: for each of the three valid mode strings `m`, `setTheme m` followed
by `getTheme` returns `m`; for any string outside the three values,
`setTheme` leaves the whole system (hence `getTheme`) unchanged. -/
theorem setTheme_getTheme (sys : Sys) (m : String) :
    (m ∈ themesValues → getTheme (setTheme m sys) = m) ∧
    (m ∉ themesValues → setTheme m sys = sys) := by
  constructor
  · intro h
    simp [setTheme, h, getTheme, applyTheme]
  · intro h
    simp [setTheme, h]

/-- Witness for C2 at concrete inputs: a valid mode and an invalid one. -/
theorem setTheme_getTheme_witness :
    getTheme (setTheme "light"
        { state := initialState, store := { val := none, readFails := false, writeFails := false } }) =
      "light" ∧
    setTheme "bogus"
        { state := initialState, store := { val := none, readFails := false, writeFails := false } } =
      { state := initialState, store := { val := none, readFails := false, writeFails := false } } :=
  ⟨(setTheme_getTheme _ "light").1 (by decide),
   (setTheme_getTheme _ "bogus").2 (by decide)⟩

/-- C3: from any of the three valid modes, `cycleTheme` follows the fixed
order system → light → dark → system, and three successive calls return
the current mode to its starting value. -/
theorem cycleTheme_period_three (sys : Sys)
    (h : sys.state.currentTheme ∈ themesValues) :
    (sys.state.currentTheme = THEMES.SYSTEM → getTheme (cycleTheme sys) = THEMES.LIGHT) ∧
    (sys.state.currentTheme = THEMES.LIGHT → getTheme (cycleTheme sys) = THEMES.DARK) ∧
    (sys.state.currentTheme = THEMES.DARK → getTheme (cycleTheme sys) = THEMES.SYSTEM) ∧
    getTheme (cycleTheme (cycleTheme (cycleTheme sys))) = getTheme sys := by
  simp only [themesValues, List.mem_cons, List.not_mem_nil, or_false] at h
  rcases h with h | h | h <;>
    simp [cycleTheme, applyTheme, getTheme, THEMES.SYSTEM, THEMES.LIGHT, THEMES.DARK, h]

/-- Witness for C3: a concrete system whose current mode is `"dark"`. -/
theorem cycleTheme_period_three_witness :
    getTheme (cycleTheme (cycleTheme (cycleTheme
        { state := { currentTheme := "dark", dataTheme := some "dark", events := [] },
          store := { val := some "dark", readFails := false, writeFails := false } }))) =
      getTheme
        { state := { currentTheme := "dark", dataTheme := some "dark", events := [] },
          store := { val := some "dark", readFails := false, writeFails := false } } :=
  (cycleTheme_period_three _ (by decide)).2.2.2

/-- C4: after `applyTheme mode`, the document root carries no marker when
`mode` is `"system"`, and carries the marker `mode` when `mode` is
`"light"` or `"dark"`. -/
theorem applyTheme_marker (st : State) (mode : String) :
    (mode = THEMES.SYSTEM → (applyTheme mode st).dataTheme = none) ∧
    (mode = THEMES.LIGHT ∨ mode = THEMES.DARK →
      (applyTheme mode st).dataTheme = some mode) := by
  constructor
  · intro h
    simp [applyTheme, h]
  · rintro (h | h) <;>
      simp [applyTheme, h, THEMES.SYSTEM, THEMES.LIGHT, THEMES.DARK]

/-- Witness for C4 at concrete modes `"system"` and `"dark"`. -/
theorem applyTheme_marker_witness :
    (applyTheme "system" initialState).dataTheme = none ∧
    (applyTheme "dark" initialState).dataTheme = some "dark" :=
  ⟨(applyTheme_marker initialState "system").1 rfl,
   (applyTheme_marker initialState "dark").2 (Or.inr rfl)⟩

/-- C5: every `applyTheme mode` call appends exactly one `themeChange`
event, its payload is the new mode, and the in-memory `currentTheme` has
already been updated to the new mode at the moment of dispatch (the event
records `currentTheme = mode` at dispatch time, and the returned state's
`currentTheme` is `mode`). -/
theorem applyTheme_dispatch (st : State) (mode : String) :
    (applyTheme mode st).events =
      st.events ++ [{ theme := mode, modeAtDispatch := mode }] ∧
    (applyTheme mode st).currentTheme = mode := by
  simp only [applyTheme]
  split <;> simp

/-- C6: on an OS appearance-signal change, if the current mode is
`"system"` the handler dispatches exactly one `themeChange` event with
payload `"system"` and leaves the current mode unchanged, while the
effective visual derivation follows the new OS signal (dark when the OS
now prefers dark); if the current mode is anything else, the handler is
the identity: no event, mode and marker unchanged. -/
theorem osSignalChange_behavior (st : State) :
    (st.currentTheme = THEMES.SYSTEM →
      (mediaQueryChangeHandler st).events =
        st.events ++ [{ theme := THEMES.SYSTEM, modeAtDispatch := THEMES.SYSTEM }] ∧
      (mediaQueryChangeHandler st).currentTheme = st.currentTheme ∧
      effectiveTheme (mediaQueryChangeHandler st).currentTheme true = THEMES.DARK) ∧
    (st.currentTheme ≠ THEMES.SYSTEM → mediaQueryChangeHandler st = st) := by
  constructor
  · intro h
    simp [mediaQueryChangeHandler, applyTheme, effectiveTheme, getSystemTheme, h]
  · intro h
    simp [mediaQueryChangeHandler, h]

/-- Witness for C6: a state in system mode and a state in dark mode. -/
theorem osSignalChange_behavior_witness :
    ((mediaQueryChangeHandler initialState).events =
        initialState.events ++ [{ theme := "system", modeAtDispatch := "system" }] ∧
      (mediaQueryChangeHandler initialState).currentTheme = initialState.currentTheme ∧
      effectiveTheme (mediaQueryChangeHandler initialState).currentTheme true = "dark") ∧
    mediaQueryChangeHandler { currentTheme := "dark", dataTheme := some "dark", events := [] } =
      { currentTheme := "dark", dataTheme := some "dark", events := [] } :=
  ⟨(osSignalChange_behavior initialState).1 rfl,
   (osSignalChange_behavior _).2 (by decide)⟩

/-- C7: store failures never block the in-memory state.  If the write
throws during `setTheme m` for a valid mode `m`, `getTheme` afterwards is
still `m`, the theme is still applied to the document marker, and the
store is simply left untouched (the exception is swallowed by the
try/catch, so nothing propagates — the embedding of `saveTheme` is a total
function).  If the read throws during startup, `initTheme` falls back to
system mode with no marker. -/
theorem storeFailure_resilience (sys : Sys) (m : String) :
    (m ∈ themesValues → sys.store.writeFails = true →
      getTheme (setTheme m sys) = m ∧
      (m = THEMES.SYSTEM → (setTheme m sys).state.dataTheme = none) ∧
      (m ≠ THEMES.SYSTEM → (setTheme m sys).state.dataTheme = some m) ∧
      (setTheme m sys).store = sys.store) ∧
    (sys.store.readFails = true →
      getTheme (initTheme sys) = THEMES.SYSTEM ∧
      (initTheme sys).state.dataTheme = none) := by
  constructor
  · intro hm hw
    refine ⟨?_, ?_, ?_, ?_⟩
    · simp [setTheme, hm, getTheme, applyTheme]
    · intro h
      subst h
      simp [setTheme, applyTheme, themesValues]
    · intro h
      simp [setTheme, hm, applyTheme, h]
    · simp [setTheme, hm, saveTheme, hw]
  · intro hr
    constructor
    · simp [initTheme, getSavedTheme, hr, getTheme, applyTheme]
    · simp [initTheme, getSavedTheme, hr, applyTheme]

/-- Witness for C7: a write-throwing store during `setTheme "light"`, and
a read-throwing store during startup. -/
theorem storeFailure_resilience_witness :
    (getTheme (setTheme "light"
        { state := initialState,
          store := { val := none, readFails := false, writeFails := true } }) = "light" ∧
      (setTheme "light"
        { state := initialState,
          store := { val := none, readFails := false, writeFails := true } }).state.dataTheme =
        some "light" ∧
      (setTheme "light"
        { state := initialState,
          store := { val := none, readFails := false, writeFails := true } }).store =
        ({ val := none, readFails := false, writeFails := true } : Store)) ∧
    getTheme (initTheme
        { state := initialState,
          store := { val := some "dark", readFails := true, writeFails := false } }) =
      "system" :=
  ⟨⟨((storeFailure_resilience _ "light").1 (by decide) rfl).1,
    ((storeFailure_resilience _ "light").1 (by decide) rfl).2.2.1 (by decide),
    ((storeFailure_resilience _ "light").1 (by decide) rfl).2.2.2⟩,
   ((storeFailure_resilience
      { state := initialState,
        store := { val := some "dark", readFails := true, writeFails := false } } "light").2
      rfl).1⟩

/-- C8: with a functional store, `setTheme m` for a valid `m` writes
exactly `m` under the fixed key, and a later startup in a fresh session
(fresh in-memory state, same store) reads it back: `getTheme` is `m`. -/
theorem setTheme_roundTrip (sys : Sys) (m : String)
    (hm : m ∈ themesValues) (hw : sys.store.writeFails = false)
    (hr : sys.store.readFails = false) :
    (setTheme m sys).store.val = some m ∧
    getTheme (initTheme
        { state := initialState, store := (setTheme m sys).store }) = m := by
  have hstore : (setTheme m sys).store =
      { sys.store with val := some m } := by
    simp [setTheme, hm, saveTheme, hw]
  have hne : ¬ m = "" := by
    intro he
    rw [he] at hm
    simp [themesValues, THEMES.SYSTEM, THEMES.LIGHT, THEMES.DARK] at hm
  rw [hstore]
  constructor
  · rfl
  · simp [initTheme, getSavedTheme, hr, hne, getTheme, applyTheme]

/-- Witness for C8 at mode `"dark"` with a functional empty store. -/
theorem setTheme_roundTrip_witness :
    (setTheme "dark"
        { state := initialState,
          store := { val := none, readFails := false, writeFails := false } }).store.val =
      some "dark" ∧
    getTheme (initTheme
        { state := initialState,
          store := (setTheme "dark"
            { state := initialState,
              store := { val := none, readFails := false, writeFails := false } }).store }) =
      "dark" :=
  setTheme_roundTrip _ "dark" (by decide) rfl rfl

/-- C9: `cycleTheme` is total on arbitrary current-mode strings: from any
mode outside the three enumerated values the default branch picks system
mode, persists it (when the write does not throw), and applies it (no
document marker, system-mode event dispatched). -/
theorem cycleTheme_total_default (sys : Sys)
    (h : sys.state.currentTheme ∉ themesValues)
    (hw : sys.store.writeFails = false) :
    getTheme (cycleTheme sys) = THEMES.SYSTEM ∧
    (cycleTheme sys).store.val = some THEMES.SYSTEM ∧
    (cycleTheme sys).state.dataTheme = none ∧
    (cycleTheme sys).state.events =
      sys.state.events ++
        [{ theme := THEMES.SYSTEM, modeAtDispatch := THEMES.SYSTEM }] := by
  simp only [themesValues, List.mem_cons, List.not_mem_nil, or_false, not_or] at h
  obtain ⟨h1, h2, h3⟩ := h
  refine ⟨?_, ?_, ?_, ?_⟩ <;>
    simp [cycleTheme, getTheme, applyTheme, saveTheme, hw, h1, h2, h3]

/-- Witness for C9: a corrupted current mode `"banana"`. -/
theorem cycleTheme_total_default_witness :
    getTheme (cycleTheme
        { state := { currentTheme := "banana", dataTheme := some "banana", events := [] },
          store := { val := some "banana", readFails := false, writeFails := false } }) =
      "system" ∧
    (cycleTheme
        { state := { currentTheme := "banana", dataTheme := some "banana", events := [] },
          store := { val := some "banana", readFails := false, writeFails := false } }).store.val =
      some "system" :=
  ⟨(cycleTheme_total_default _ (by decide) rfl).1,
   (cycleTheme_total_default _ (by decide) rfl).2.1⟩

/-- C10: a persisted empty-string value is coalesced by the startup read
exactly like an absent value: `getSavedTheme` returns system mode for
both, and the two reads agree. -/
theorem getSavedTheme_empty_as_absent :
    getSavedTheme { val := some "", readFails := false, writeFails := false } =
      THEMES.SYSTEM ∧
    getSavedTheme { val := none, readFails := false, writeFails := false } =
      THEMES.SYSTEM ∧
    getSavedTheme { val := some "", readFails := false, writeFails := false } =
      getSavedTheme { val := none, readFails := false, writeFails := false } :=
  ⟨rfl, rfl, rfl⟩

/-- C1 counterexample: a persisted unrecognized non-empty string is NOT
coalesced to system mode by startup.  With stored value `"banana"`,
`initTheme` leaves `getTheme` equal to `"banana"` (not `"system"`) and
sets the document marker to `"banana"` (not absent): the startup read only
coalesces falsy values, and `applyTheme` applies any non-system string
verbatim. -/
theorem initTheme_unrecognized_counterexample :
    ¬ (getTheme (initTheme
          { state := initialState,
            store := { val := some "banana", readFails := false, writeFails := false } }) =
        THEMES.SYSTEM ∧
       (initTheme
          { state := initialState,
            store := { val := some "banana", readFails := false, writeFails := false } }).state.dataTheme =
        none) ∧
    getTheme (initTheme
        { state := initialState,
          store := { val := some "banana", readFails := false, writeFails := false } }) =
      "banana" ∧
    (initTheme
        { state := initialState,
          store := { val := some "banana", readFails := false, writeFails := false } }).state.dataTheme =
      some "banana" := by
  refine ⟨?_, rfl, rfl⟩
  intro hcontra
  exact absurd hcontra.2 (by decide)

/-- C1 amended: for a persisted value that is missing, empty, or whose
read throws, `initTheme` yields system mode and leaves the document root
without a marker attribute.  (An unrecognized non-empty stored string is
instead applied verbatim, per the counterexample.) -/
theorem initTheme_default_fallback (sys : Sys)
    (h : sys.store.readFails = true ∨ sys.store.val = none ∨
      sys.store.val = some "") :
    getTheme (initTheme sys) = THEMES.SYSTEM ∧
    (initTheme sys).state.dataTheme = none := by
  rcases h with h | h | h <;>
    constructor <;>
      simp [initTheme, getSavedTheme, h, getTheme, applyTheme]

/-- Witness for the amended C1: an absent stored value. -/
theorem initTheme_default_fallback_witness :
    getTheme (initTheme
        { state := initialState,
          store := { val := none, readFails := false, writeFails := false } }) = "system" ∧
    (initTheme
        { state := initialState,
          store := { val := none, readFails := false, writeFails := false } }).state.dataTheme =
      none :=
  initTheme_default_fallback _ (Or.inr (Or.inl rfl))
